import Mathlib

/-!
Verification development for the AppScale InfrastructureManager
(src/InfrastructureManager/infrastructure_manager.py), a shallow embedding
of the operation-lifecycle orchestrator: request validation, operation
records, the run-instances worker with its partial-failure reconciliation
diff, and the terminate-instances worker.

The cloud agent is an external collaborator; each backend call a worker
makes is modelled as an oracle field holding the result of that one call
(a normal result, or an AgentConfigurationException / AgentRuntimeException).
The persistent operation store is modelled as an association list.
-/

namespace IM

/-- Errors an agent call can signal: AgentConfigurationException or
AgentRuntimeException from appscale.tools.agents.base_agent. -/
inductive AgentError where
  | config (msg : String)
  | runtime (msg : String)
deriving Repr, DecidableEq

/-- The str(exception) text of an agent error. -/
def AgentError.msg : AgentError → String
  | .config m => m
  | .runtime m => m

/-- Exceptions the orchestrator itself can let escape to its caller. -/
inductive PyExn where
  | valueError (msg : String)
  | agentConfig (msg : String)
  | agentRuntime (msg : String)
deriving Repr, DecidableEq

/-- Re-raising an uncaught agent exception at the API boundary. -/
def PyExn.ofAgent : AgentError → PyExn
  | .config m => .agentConfig m
  | .runtime m => .agentRuntime m

/-- The vm_info dictionary stored on run operation records
(infrastructure_manager.py lines 369-373 and 387-391). -/
structure VmInfo where
  public_ips : List String
  private_ips : List String
  instance_ids : List String
deriving Repr, DecidableEq

/-- An operation record (status_info dictionary). Terminate records carry
no vm_info key in the source; they are embedded with vm_info = none. -/
structure StatusInfo where
  success : Bool
  reason : String
  state : String
  vm_info : Option VmInfo
deriving Repr, DecidableEq

/-- States a particular request could be in. -/
def STATE_PENDING : String := "pending"

/-- Terminal state for a completed operation. -/
def STATE_SUCCESS : String := "success"

/-- Terminal state for a failed operation. -/
def STATE_FAILED : String := "failed"

/-- Default reason strings of the module. -/
def REASON_BAD_SECRET : String := "bad secret"

/-- Reason returned for a non-positive VM count. -/
def REASON_BAD_VM_COUNT : String := "bad vm count"

/-- Reason returned by describe_operation for an unknown id. -/
def REASON_OPERATION_ID_NOT_FOUND : String := "operation_id not found"

/-- Neutral reason used on successful submissions. -/
def REASON_NONE : String := "none"

/-- Modelled from the spec: the Operation Store is an abstract persistent
mapping (PersistentDictionary, not under src/) with get, put and has;
embedded as an association list keyed by operation id. -/
abbrev Store := List (String × StatusInfo)

/-- Store lookup (PersistentDictionary.get). -/
def sget (s : Store) (k : String) : Option StatusInfo :=
  match s with
  | [] => none
  | (k0, v) :: rest => if k0 = k then some v else sget rest k

/-- Store write (PersistentDictionary.put): overwrite the key if present,
otherwise append a new entry. -/
def sput (s : Store) (k : String) (v : StatusInfo) : Store :=
  match s with
  | [] => [(k, v)]
  | (k0, v0) :: rest =>
      if k0 = k then (k0, v) :: rest else (k0, v0) :: sput rest k v

/-- Store membership (PersistentDictionary.has_key). -/
def shas (s : Store) (k : String) : Bool :=
  (sget s k).isSome

/-- Request payloads: a string-keyed parameter mapping. -/
abbrev Params := List (String × String)

/-- Lookup of a request parameter value. -/
def pget (ps : Params) (k : String) : Option String :=
  match ps with
  | [] => none
  | (k0, v) :: rest => if k0 = k then some v else pget rest k

/-- Modelled from the spec: utils.has_parameter (utils/utils.py, not under
src/) tests that a required key is present in the request mapping. -/
def has_parameter (k : String) (ps : Params) : Bool :=
  (pget ps k).isSome

/-- Accumulate decimal digits; fails on any non-digit character. -/
def parseNatAux : List Char → Nat → Option Nat
  | [], acc => some acc
  | c :: cs, acc =>
      if c.isDigit then parseNatAux cs (acc * 10 + (c.toNat - 48)) else none

/-- Model of the Python int() conversion applied to a parameter value:
an optional sign followed by at least one decimal digit; anything else
raises ValueError, modelled as none. -/
def pyInt (s : String) : Option Int :=
  match s.toList with
  | [] => none
  | '-' :: cs =>
      match cs with
      | [] => none
      | _ => (parseNatAux cs 0).map (fun n => -(n : Int))
  | '+' :: cs =>
      match cs with
      | [] => none
      | _ => (parseNatAux cs 0).map (fun n => (n : Int))
  | cs => (parseNatAux cs 0).map (fun n => (n : Int))

/-- Modelled from the spec: BaseAgent.diff (not under src/) is the set
difference of two sequences, order-preserving with respect to the first. -/
def diff (a b : List String) : List String :=
  a.filter (fun x => !(b.contains x))

/-- A triple of sequences as returned by agent.describe_instances:
public ips, private ips, instance ids, in the order the orchestrator
unpacks them (lines 358 and 378). -/
abbrev Inventory := List String × List String × List String

/-- One worker run of the cloud agent, as an oracle of the results of the
individual backend calls the worker can make, in program order: the
baseline describe_instances, configure_instance_security, run_instances
(returning ids, public ips, private ips in positions 0, 1, 2), the
post-failure describe_instances, and terminate_instances. -/
structure Agent where
  describe1 : Except AgentError Inventory
  configure_instance_security : Except AgentError Bool
  run_instances_result : Except AgentError (List String × List String × List String)
  describe2 : Except AgentError Inventory
  terminate_instances_result : Except AgentError Unit
  assert_required_run : Except AgentError Unit
  assert_required_terminate : Except AgentError Unit
  attach_disk_result : Except AgentError String

/-- InfrastructureManager.__describe_vms: call the agent to describe VMs;
on AgentConfigurationException or AgentRuntimeException return empty lists. -/
def describe_vms (r : Except AgentError Inventory) : Inventory :=
  match r with
  | .ok t => t
  | .error _ => ([], [], [])

/-- The body of the try block of __spawn_vms: configure_instance_security
then run_instances; the first agent error aborts the block. -/
def spawn_attempt (agent : Agent) :
    Except AgentError (List String × List String × List String) :=
  match agent.configure_instance_security with
  | .error e => .error e
  | .ok _ => agent.run_instances_result

/-- InfrastructureManager.__spawn_vms, lines 346-403, acting on the record
read for the operation: snapshot the baseline inventory, attempt the
launch; on full success record state success with the returned triples;
on an agent error re-snapshot, diff public ips against the baseline and
either record a partial success (state success, success false, reason set,
vm_info from the three diffs) or a failure (state failed, success false,
reason set, vm_info untouched). Returns the record that is then put. -/
def spawn_vms (agent : Agent) (status0 : StatusInfo) : StatusInfo :=
  let active := describe_vms agent.describe1
  match spawn_attempt agent with
  | .ok (ids, public_ips, private_ips) =>
      { status0 with
          state := STATE_SUCCESS,
          vm_info := some ⟨public_ips, private_ips, ids⟩ }
  | .error e =>
      let post := describe_vms agent.describe2
      let public_ips := diff post.1 active.1
      if public_ips.isEmpty then
        { status0 with
            state := STATE_FAILED,
            success := false,
            reason := e.msg }
      else
        { status0 with
            state := STATE_SUCCESS,
            vm_info := some ⟨public_ips, diff post.2.1 active.2.1,
                             diff post.2.2 active.2.2⟩,
            success := false,
            reason := e.msg }

/-- InfrastructureManager.__kill_vms, lines 406-427: terminate the
instances; on success record state success, on AgentRuntimeException
record state failed with the error text. Only AgentRuntimeException is
caught, so an AgentConfigurationException propagates out of the worker,
modelled as the error branch. -/
def kill_vms (agent : Agent) (status0 : StatusInfo) :
    Except AgentError StatusInfo :=
  match agent.terminate_instances_result with
  | .ok _ => .ok { status0 with state := STATE_SUCCESS }
  | .error (.runtime m) =>
      .ok { status0 with state := STATE_FAILED, reason := m }
  | .error (.config m) => .error (.config m)

/-- The blocking worker call of run_instances: read the record for the
operation id, run __spawn_vms on it and put the result back. The id is
always present at the call site (the pending put precedes scheduling);
the none branch is unreachable in the flows below. -/
def spawn_vms_store (agent : Agent) (store : Store) (operation_id : String) :
    Store :=
  match sget store operation_id with
  | some status0 => sput store operation_id (spawn_vms agent status0)
  | none => store

/-- The blocking worker call of terminate_instances: read the record, run
__kill_vms and put the result back; an uncaught AgentConfigurationException
leaves the store as it was (the put on line 427 is never reached). -/
def kill_vms_store (agent : Agent) (store : Store) (operation_id : String) :
    Except AgentError Store :=
  match sget store operation_id with
  | some status0 =>
      match kill_vms agent status0 with
      | .ok s => .ok (sput store operation_id s)
      | .error e => .error e
  | none => .ok store

/-- A service response dictionary built by __generate_response: a success
flag, a reason, and any extra key-value pairs merged in. -/
structure Response where
  success : Bool
  reason : String
  extra : List (String × String)
deriving Repr, DecidableEq

/-- InfrastructureManager.__generate_response without extra fields. -/
def generate_response (status : Bool) (msg : String) : Response :=
  ⟨status, msg, []⟩

/-- InfrastructureManager.__generate_response with extra fields. -/
def generate_response_extra (status : Bool) (msg : String)
    (extra : List (String × String)) : Response :=
  ⟨status, msg, extra⟩

/-- The orchestrator state: the process secret established at startup and
the persistent operation_ids dictionary. -/
structure IMState where
  secret : String
  operation_ids : Store

/-- The pending record a run submission puts (lines 212-217). -/
def pendingRunRecord : StatusInfo :=
  ⟨true, "received run request", STATE_PENDING, none⟩

/-- The pending record a terminate submission puts (lines 281-285);
the source dictionary carries no vm_info key. -/
def pendingKillRecord : StatusInfo :=
  ⟨true, "received kill request", STATE_PENDING, none⟩

/-- Outcome of the submission phase of run_instances (lines 186-220):
either a rejection response, a synchronously raised exception, or
acceptance carrying the allocated operation id, the parsed VM count and
the store holding the new pending record. -/
inductive RunSubmit where
  | rejected (r : Response)
  | raised (e : PyExn)
  | accepted (operation_id : String) (num_vms : Int) (store1 : Store)
deriving Repr, DecidableEq

/-- The submission phase of InfrastructureManager.run_instances: secret
check, required parameters infrastructure and num_vms in order, int
conversion of num_vms (ValueError propagates), positivity check, the
agent assert_required_parameters call (only AgentConfigurationException
is caught), then allocation of the operation id returned by
utils.get_random_alphanumeric — modelled as the oracle argument freshId,
used without any check against the store — and the pending put. -/
def run_submit (im : IMState) (agent : Agent) (freshId : String)
    (params : Params) (secret : String) : RunSubmit :=
  if im.secret ≠ secret then
    .rejected (generate_response false REASON_BAD_SECRET)
  else if !(has_parameter "infrastructure" params) then
    .rejected (generate_response false "no infrastructure")
  else if !(has_parameter "num_vms" params) then
    .rejected (generate_response false "no num_vms")
  else
    match pyInt ((pget params "num_vms").getD "") with
    | none => .raised (.valueError "invalid literal for int")
    | some num_vms =>
      if num_vms ≤ 0 then
        .rejected (generate_response false REASON_BAD_VM_COUNT)
      else
        match agent.assert_required_run with
        | .error (.config m) => .rejected (generate_response false m)
        | .error (.runtime m) => .raised (.agentRuntime m)
        | .ok _ =>
            .accepted freshId num_vms
              (sput im.operation_ids freshId pendingRunRecord)

/-- InfrastructureManager.run_instances in blocking mode: the submission
phase followed, on acceptance, by the inline __spawn_vms worker; the store
survives a raised exception unchanged since every raise precedes the put. -/
def run_instances (im : IMState) (agent : Agent) (freshId : String)
    (params : Params) (secret : String) : Except PyExn Response × IMState :=
  match run_submit im agent freshId params secret with
  | .rejected r => (.ok r, im)
  | .raised e => (.error e, im)
  | .accepted oid _ st1 =>
      (.ok (generate_response_extra true REASON_NONE [("operation_id", oid)]),
       ⟨im.secret, spawn_vms_store agent st1 oid⟩)

/-- Outcome of the submission phase of terminate_instances (lines 263-288). -/
inductive KillSubmit where
  | rejected (r : Response)
  | raised (e : PyExn)
  | accepted (operation_id : String) (store1 : Store)
deriving Repr, DecidableEq

/-- The submission phase of InfrastructureManager.terminate_instances:
secret check, required parameter infrastructure, the agent
assert_required_parameters call (only AgentConfigurationException is
caught), then the operation id allocation and the pending put. -/
def terminate_submit (im : IMState) (agent : Agent) (freshId : String)
    (params : Params) (secret : String) : KillSubmit :=
  if im.secret ≠ secret then
    .rejected (generate_response false REASON_BAD_SECRET)
  else if !(has_parameter "infrastructure" params) then
    .rejected (generate_response false "no infrastructure")
  else
    match agent.assert_required_terminate with
    | .error (.config m) => .rejected (generate_response false m)
    | .error (.runtime m) => .raised (.agentRuntime m)
    | .ok _ =>
        .accepted freshId (sput im.operation_ids freshId pendingKillRecord)

/-- InfrastructureManager.terminate_instances in blocking mode: the
submission phase followed, on acceptance, by the inline __kill_vms worker;
an uncaught agent exception escapes the call but the pending record put
by the submission remains in the store. -/
def terminate_instances (im : IMState) (agent : Agent) (freshId : String)
    (params : Params) (secret : String) : Except PyExn Response × IMState :=
  match terminate_submit im agent freshId params secret with
  | .rejected r => (.ok r, im)
  | .raised e => (.error e, im)
  | .accepted oid st1 =>
      match kill_vms_store agent st1 oid with
      | .ok st2 =>
          (.ok (generate_response_extra true REASON_NONE
                  [("operation_id", oid)]),
           ⟨im.secret, st2⟩)
      | .error e => (.error (PyExn.ofAgent e), ⟨im.secret, st1⟩)

/-- What describe_operation returns: the stored record verbatim, or an
error response. -/
inductive DescribeOut where
  | record (s : StatusInfo)
  | resp (r : Response)
deriving Repr, DecidableEq

/-- InfrastructureManager.describe_operation, lines 137-150: secret check,
required operation_id parameter, then either the stored record verbatim or
the operation_id-not-found response. The store is returned so that the
read-only nature of the call is a statement about this definition. -/
def describe_operation (im : IMState) (params : Params) (secret : String) :
    DescribeOut × IMState :=
  if im.secret ≠ secret then
    (.resp (generate_response false REASON_BAD_SECRET), im)
  else if !(has_parameter "operation_id" params) then
    (.resp (generate_response false "no operation_id"), im)
  else
    let operation_id := (pget params "operation_id").getD ""
    match sget im.operation_ids operation_id with
    | some s => (.record s, im)
    | none =>
        (.resp (generate_response false REASON_OPERATION_ID_NOT_FOUND), im)

/-- InfrastructureManager.attach_disk, lines 301-323: secret check, then a
synchronous agent.attach_disk call whose exceptions are uncaught; on
success the location is returned in the response. No operation record is
involved. -/
def attach_disk (im : IMState) (agent : Agent) (_params : Params)
    (secret : String) : Except PyExn Response × IMState :=
  if im.secret ≠ secret then
    (.ok (generate_response false REASON_BAD_SECRET), im)
  else
    match agent.attach_disk_result with
    | .ok loc =>
        (.ok (generate_response_extra true REASON_NONE [("location", loc)]),
         im)
    | .error e => (.error (PyExn.ofAgent e), im)

/-! Helper lemmas about the store and the workers. -/

theorem sget_sput_self (s : Store) (k : String) (v : StatusInfo) :
    sget (sput s k v) k = some v := by
  induction s with
  | nil => simp [sget, sput]
  | cons kv rest ih =>
      obtain ⟨k0, v0⟩ := kv
      by_cases h : k0 = k
      · simp [sget, sput, h]
      · simp [sget, sput, h, ih]

theorem shas_sput_self (s : Store) (k : String) (v : StatusInfo) :
    shas (sput s k v) k = true := by
  simp [shas, sget_sput_self]

/-- Running the spawn worker on a store that holds the pending record it
was scheduled for performs exactly one further write: the terminal record
computed by __spawn_vms. -/
theorem spawn_vms_store_put (agent : Agent) (store : Store) (oid : String)
    (status0 : StatusInfo) :
    spawn_vms_store agent (sput store oid status0) oid =
      sput (sput store oid status0) oid (spawn_vms agent status0) := by
  simp [spawn_vms_store, sget_sput_self]

/-- Running the kill worker on a store that holds the pending record it
was scheduled for either performs exactly one further write (the terminal
record) or propagates the uncaught agent error and writes nothing. -/
theorem kill_vms_store_put (agent : Agent) (store : Store) (oid : String)
    (status0 : StatusInfo) :
    kill_vms_store agent (sput store oid status0) oid =
      match kill_vms agent status0 with
      | .ok s => .ok (sput (sput store oid status0) oid s)
      | .error e => .error e := by
  simp [kill_vms_store, sget_sput_self]

/-- The record __spawn_vms writes is always terminal. -/
theorem spawn_vms_terminal (agent : Agent) (status0 : StatusInfo) :
    (spawn_vms agent status0).state = STATE_SUCCESS ∨
      (spawn_vms agent status0).state = STATE_FAILED := by
  unfold spawn_vms
  cases spawn_attempt agent with
  | ok t => obtain ⟨ids, pub, priv⟩ := t; left; rfl
  | error e =>
      by_cases h : (diff (describe_vms agent.describe2).1
          (describe_vms agent.describe1).1).isEmpty
      · right; simp [h]
      · left; simp [h]

/-- When the kill worker completes without propagating, the record it
writes is terminal. -/
theorem kill_vms_terminal (agent : Agent) (status0 fin : StatusInfo)
    (h : kill_vms agent status0 = .ok fin) :
    fin.state = STATE_SUCCESS ∨ fin.state = STATE_FAILED := by
  unfold kill_vms at h
  cases ht : agent.terminate_instances_result with
  | ok u => rw [ht] at h; cases h; left; rfl
  | error e =>
      cases e with
      | config m => rw [ht] at h; cases h
      | runtime m => rw [ht] at h; cases h; right; rfl

/-- An accepted run submission: with a matching secret, both required
parameters, a positive parsed VM count and a passing agent parameter
assertion, run_instances returns the success response carrying the
allocated id and the final store holds the pending put followed by the
single terminal write of the spawn worker. -/
theorem run_flow_accepted (im : IMState) (agent : Agent) (freshId : String)
    (params : Params) (secret : String) (n : Int)
    (hsec : im.secret = secret)
    (hinf : has_parameter "infrastructure" params = true)
    (hnum : has_parameter "num_vms" params = true)
    (hpy : pyInt ((pget params "num_vms").getD "") = some n)
    (hpos : 0 < n)
    (har : agent.assert_required_run = .ok ()) :
    run_instances im agent freshId params secret =
      (.ok (generate_response_extra true REASON_NONE
              [("operation_id", freshId)]),
       ⟨im.secret,
        sput (sput im.operation_ids freshId pendingRunRecord) freshId
          (spawn_vms agent pendingRunRecord)⟩) := by
  have hsub : run_submit im agent freshId params secret =
      .accepted freshId n (sput im.operation_ids freshId pendingRunRecord) := by
    unfold run_submit
    simp [hsec, hinf, hnum, hpy, har, not_le.mpr hpos]
  unfold run_instances
  rw [hsub]
  dsimp only
  rw [spawn_vms_store_put]

/-- An accepted terminate submission: the outcome of the flow is decided
by the kill worker, which either writes its terminal record or propagates
the uncaught agent error leaving only the pending record. -/
theorem terminate_flow_accepted (im : IMState) (agent : Agent)
    (freshId : String) (params : Params) (secret : String)
    (hsec : im.secret = secret)
    (hinf : has_parameter "infrastructure" params = true)
    (har : agent.assert_required_terminate = .ok ()) :
    terminate_instances im agent freshId params secret =
      match kill_vms agent pendingKillRecord with
      | .ok fin =>
          (.ok (generate_response_extra true REASON_NONE
                  [("operation_id", freshId)]),
           ⟨im.secret,
            sput (sput im.operation_ids freshId pendingKillRecord) freshId
              fin⟩)
      | .error e =>
          (.error (PyExn.ofAgent e),
           ⟨im.secret, sput im.operation_ids freshId pendingKillRecord⟩) := by
  have hsub : terminate_submit im agent freshId params secret =
      .accepted freshId (sput im.operation_ids freshId pendingKillRecord) := by
    unfold terminate_submit
    simp [hsec, hinf, har]
  unfold terminate_instances
  rw [hsub]
  dsimp only
  rw [kill_vms_store_put]
  cases kill_vms agent pendingKillRecord <;> rfl

/-- A concrete agent on which every backend call succeeds. -/
def agentOk : Agent :=
  ⟨.ok ([], [], []), .ok true,
   .ok (["i1", "i2"], ["p1", "p2"], ["q1", "q2"]),
   .ok ([], [], []), .ok (), .ok (), .ok (), .ok "sdb"⟩

/-- A concrete agent whose launch call fails with a runtime error after
one instance appeared in the inventory. -/
def agentPartial : Agent :=
  ⟨.ok ([], [], []), .ok true, .error (.runtime "launch failed"),
   .ok (["p1"], ["q1"], ["i1"]), .ok (), .ok (), .ok (), .ok "sdb"⟩

/-! Claim theorems. -/

/-- Claim C6: for every call to run_instances, terminate_instances,
describe_operation or attach_disk with a well-formed parameter mapping
whose secret does not equal the process secret, the call returns the
success false, reason bad secret response before any other parameter is
inspected (the result is this response for arbitrary parameters and
agents), and no operation record is created (the state is unchanged). -/
theorem bad_secret_rejects_all (im : IMState) (agent : Agent)
    (freshId : String) (params : Params) (secret : String)
    (h : im.secret ≠ secret) :
    run_instances im agent freshId params secret =
      (.ok (generate_response false REASON_BAD_SECRET), im) ∧
    terminate_instances im agent freshId params secret =
      (.ok (generate_response false REASON_BAD_SECRET), im) ∧
    describe_operation im params secret =
      (.resp (generate_response false REASON_BAD_SECRET), im) ∧
    attach_disk im agent params secret =
      (.ok (generate_response false REASON_BAD_SECRET), im) := by
  refine ⟨?_, ?_, ?_, ?_⟩ <;>
    simp [run_instances, run_submit, terminate_instances, terminate_submit,
      describe_operation, attach_disk, h]

/-- Witness for C6 at a concrete wrong-secret call. -/
theorem bad_secret_rejects_all_witness :
    (IMState.mk "s" []).secret ≠ "t" ∧
    describe_operation ⟨"s", []⟩ [("operation_id", "z")] "t" =
      (.resp (generate_response false REASON_BAD_SECRET), ⟨"s", []⟩) :=
  ⟨by decide,
   (bad_secret_rejects_all ⟨"s", []⟩ agentOk "op" [("operation_id", "z")] "t"
      (by decide)).2.2.1⟩

/-- Claim C8: if the baseline describe_instances call fails with a
configuration or runtime error, __describe_vms absorbs the error and
returns three empty sequences, and the run worker proceeds exactly as it
would with an empty baseline: the spawn result is identical, so the
describe failure is never propagated and does not terminate the
operation. -/
theorem describe_failure_empty_baseline (agent : Agent) (e : AgentError)
    (status0 : StatusInfo) :
    describe_vms (.error e) = ([], [], []) ∧
    spawn_vms { agent with describe1 := .error e } status0 =
      spawn_vms { agent with describe1 := .ok ([], [], []) } status0 :=
  ⟨rfl, rfl⟩

/-- Claim C9: describe_operation is read-only (it returns the state it was
given), hence idempotent (a second call on the resulting state returns the
same output), and with a matching secret and the operation_id parameter
present it returns the stored record verbatim, or the
operation_id-not-found response when the identifier is absent. -/
theorem describe_read_only_idempotent (im : IMState) (params : Params)
    (secret : String) :
    (describe_operation im params secret).2 = im ∧
    describe_operation (describe_operation im params secret).2 params secret =
      describe_operation im params secret ∧
    (im.secret = secret → has_parameter "operation_id" params = true →
      (describe_operation im params secret).1 =
        match sget im.operation_ids ((pget params "operation_id").getD "") with
        | some s => .record s
        | none =>
            .resp (generate_response false REASON_OPERATION_ID_NOT_FOUND)) := by
  have hro : (describe_operation im params secret).2 = im := by
    unfold describe_operation
    split
    · rfl
    · split
      · rfl
      · cases hs : sget im.operation_ids ((pget params "operation_id").getD "")
          <;> simp [hs]
  refine ⟨hro, by rw [hro], ?_⟩
  intro h1 h2
  unfold describe_operation
  simp only [h1, h2]
  cases hs : sget im.operation_ids ((pget params "operation_id").getD "") <;>
    simp [hs]

/-- Claim C1: for an accepted run operation whose backend run_instances
call raises a configuration or runtime error, the worker re-snapshots the
inventory and diffs public ips post-failure minus baseline: if the
difference is non-empty the persisted terminal record has state success,
success false, reason the backend error text and vm_info built from the
three diffed sequences; if it is empty the persisted record has state
failed, success false, reason the backend error text, with vm_info left
unset (the pending record carried none). -/
theorem run_partial_failure_reconciliation (im : IMState) (agent : Agent)
    (freshId : String) (params : Params) (secret : String) (n : Int)
    (hsec : im.secret = secret)
    (hinf : has_parameter "infrastructure" params = true)
    (hnum : has_parameter "num_vms" params = true)
    (hpy : pyInt ((pget params "num_vms").getD "") = some n)
    (hpos : 0 < n)
    (har : agent.assert_required_run = .ok ())
    (b : Bool) (hcfg : agent.configure_instance_security = .ok b)
    (e : AgentError) (hrun : agent.run_instances_result = .error e) :
    sget (run_instances im agent freshId params secret).2.operation_ids
        freshId =
      some
        (if (diff (describe_vms agent.describe2).1
              (describe_vms agent.describe1).1).isEmpty then
          ⟨false, e.msg, STATE_FAILED, none⟩
        else
          ⟨false, e.msg, STATE_SUCCESS,
           some ⟨diff (describe_vms agent.describe2).1
                   (describe_vms agent.describe1).1,
                 diff (describe_vms agent.describe2).2.1
                   (describe_vms agent.describe1).2.1,
                 diff (describe_vms agent.describe2).2.2
                   (describe_vms agent.describe1).2.2⟩⟩) := by
  rw [run_flow_accepted im agent freshId params secret n hsec hinf hnum hpy
    hpos har]
  dsimp only
  rw [sget_sput_self]
  unfold spawn_vms spawn_attempt
  rw [hcfg, hrun]
  by_cases hemp : (diff (describe_vms agent.describe2).1
      (describe_vms agent.describe1).1).isEmpty
  · simp [hemp, pendingRunRecord]
  · simp [hemp, pendingRunRecord]

/-- Witness for C1 on a concrete partial failure: one instance appeared
despite the launch error, so the record is a partial success. -/
theorem run_partial_failure_reconciliation_witness :
    sget (run_instances ⟨"s", []⟩ agentPartial "op1"
        [("infrastructure", "ec2"), ("num_vms", "2")] "s").2.operation_ids
        "op1" =
      some ⟨false, "launch failed", STATE_SUCCESS,
            some ⟨["p1"], ["q1"], ["i1"]⟩⟩ := by
  have h := run_partial_failure_reconciliation ⟨"s", []⟩ agentPartial "op1"
    [("infrastructure", "ec2"), ("num_vms", "2")] "s" 2 rfl rfl rfl (by decide)
    (by decide) rfl true rfl (.runtime "launch failed") rfl
  simpa using h

/-- Witness for C9: a present and an absent identifier on a concrete
store. -/
theorem describe_read_only_idempotent_witness :
    (IMState.mk "s" [("z", ⟨true, "none", "success", none⟩)]).secret = "s" ∧
    has_parameter "operation_id" [("operation_id", "z")] = true ∧
    (describe_operation ⟨"s", [("z", ⟨true, "none", "success", none⟩)]⟩
        [("operation_id", "z")] "s").1 =
      .record ⟨true, "none", "success", none⟩ :=
  ⟨rfl, rfl,
   (describe_read_only_idempotent
      ⟨"s", [("z", ⟨true, "none", "success", none⟩)]⟩
      [("operation_id", "z")] "s").2.2 rfl rfl⟩

/-- A concrete agent whose terminate call fails with a runtime error. -/
def agentKillRuntime : Agent :=
  ⟨.ok ([], [], []), .ok true, .ok ([], [], []), .ok ([], [], []),
   .error (.runtime "terminate failed"), .ok (), .ok (), .ok "sdb"⟩

/-- A concrete agent whose terminate call fails with a configuration
error, the kind __kill_vms does not catch. -/
def agentKillConfig : Agent :=
  ⟨.ok ([], [], []), .ok true, .ok ([], [], []), .ok ([], [], []),
   .error (.config "missing credentials"), .ok (), .ok (), .ok "sdb"⟩

/-- Claim C10: when a terminate worker backend terminate_instances call
raises a runtime error, the persisted terminal record has state failed and
reason the error text, while its success field remains true, the
optimistic submission-time value, which the terminate failure path never
overwrites. -/
theorem terminate_runtime_failure_keeps_success_true (im : IMState)
    (agent : Agent) (freshId : String) (params : Params) (secret : String)
    (hsec : im.secret = secret)
    (hinf : has_parameter "infrastructure" params = true)
    (har : agent.assert_required_terminate = .ok ())
    (m : String) (ht : agent.terminate_instances_result = .error (.runtime m)) :
    (terminate_instances im agent freshId params secret).1 =
      .ok (generate_response_extra true REASON_NONE
            [("operation_id", freshId)]) ∧
    sget (terminate_instances im agent freshId params secret).2.operation_ids
        freshId = some ⟨true, m, STATE_FAILED, none⟩ := by
  have hk : kill_vms agent pendingKillRecord =
      .ok ⟨true, m, STATE_FAILED, none⟩ := by
    unfold kill_vms
    rw [ht]
    rfl
  rw [terminate_flow_accepted im agent freshId params secret hsec hinf har,
    hk]
  exact ⟨rfl, sget_sput_self _ _ _⟩

/-- Witness for C10 at a concrete runtime terminate failure. -/
theorem terminate_runtime_failure_keeps_success_true_witness :
    agentKillRuntime.terminate_instances_result =
      .error (.runtime "terminate failed") ∧
    sget (terminate_instances ⟨"s", []⟩ agentKillRuntime "op3"
        [("infrastructure", "ec2")] "s").2.operation_ids "op3" =
      some ⟨true, "terminate failed", STATE_FAILED, none⟩ :=
  ⟨rfl,
   (terminate_runtime_failure_keeps_success_true ⟨"s", []⟩ agentKillRuntime
      "op3" [("infrastructure", "ec2")] "s" rfl rfl rfl "terminate failed"
      rfl).2⟩

/-- Counterexample to C5 as stated: with a matching secret and both
required parameters present but num_vms not parsing as an integer, the
int conversion on line 199 raises a ValueError that propagates to the
caller; the call does not return the success false, bad vm count
response. No operation record is created. -/
theorem run_nonnumeric_count_counterexample :
    run_instances ⟨"s", []⟩ agentOk "op1"
        [("infrastructure", "ec2"), ("num_vms", "abc")] "s" =
      (.error (.valueError "invalid literal for int"), ⟨"s", []⟩) ∧
    (run_instances ⟨"s", []⟩ agentOk "op1"
        [("infrastructure", "ec2"), ("num_vms", "abc")] "s").1 ≠
      .ok (generate_response false REASON_BAD_VM_COUNT) := by
  constructor
  · rfl
  · intro h
    exact Except.noConfusion h

/-- Claim C5 as amended: with a matching secret and both required
parameters present, a num_vms value parsing to an integer at most zero
yields the success false, bad vm count response with no record created,
while a num_vms value that fails to parse raises a ValueError that
propagates, also with no record created. -/
theorem run_bad_vm_count (im : IMState) (agent : Agent) (freshId : String)
    (params : Params) (secret : String)
    (hsec : im.secret = secret)
    (hinf : has_parameter "infrastructure" params = true)
    (hnum : has_parameter "num_vms" params = true) :
    (∀ n : Int, pyInt ((pget params "num_vms").getD "") = some n → n ≤ 0 →
      run_instances im agent freshId params secret =
        (.ok (generate_response false REASON_BAD_VM_COUNT), im)) ∧
    (pyInt ((pget params "num_vms").getD "") = none →
      run_instances im agent freshId params secret =
        (.error (.valueError "invalid literal for int"), im)) := by
  constructor
  · intro n hpy hn
    unfold run_instances run_submit
    simp [hsec, hinf, hnum, hpy, hn]
  · intro hpy
    unfold run_instances run_submit
    simp [hsec, hinf, hnum, hpy]

/-- Witness for amended C5 at num_vms zero and num_vms non-numeric. -/
theorem run_bad_vm_count_witness :
    run_instances ⟨"s", []⟩ agentOk "op1"
        [("infrastructure", "ec2"), ("num_vms", "0")] "s" =
      (.ok (generate_response false REASON_BAD_VM_COUNT), ⟨"s", []⟩) ∧
    run_instances ⟨"s", []⟩ agentOk "op1"
        [("infrastructure", "ec2"), ("num_vms", "x")] "s" =
      (.error (.valueError "invalid literal for int"), ⟨"s", []⟩) :=
  ⟨(run_bad_vm_count ⟨"s", []⟩ agentOk "op1"
      [("infrastructure", "ec2"), ("num_vms", "0")] "s" rfl rfl rfl).1 0
      (by decide) (by decide),
   (run_bad_vm_count ⟨"s", []⟩ agentOk "op1"
      [("infrastructure", "ec2"), ("num_vms", "x")] "s" rfl rfl rfl).2
      (by decide)⟩

/-- Counterexample to C3 as stated: an operation id equal to the random
generator output is accepted even though it is already present in the
Operation Store at allocation time; the pending put overwrites the
existing record. -/
theorem operation_id_collision_counterexample :
    shas [("abc123", StatusInfo.mk true "none" "success" none)] "abc123" =
      true ∧
    run_submit ⟨"s", [("abc123", ⟨true, "none", "success", none⟩)]⟩ agentOk
        "abc123" [("infrastructure", "ec2"), ("num_vms", "2")] "s" =
      .accepted "abc123" 2
        (sput [("abc123", ⟨true, "none", "success", none⟩)] "abc123"
          pendingRunRecord) := by
  constructor
  · rfl
  · rfl

/-- Claim C3 as amended: the operation id allocated by an accepted run or
terminate submission is exactly the output of the random alphanumeric
generator, used unconditionally: no check against the Operation Store is
performed, for any store contents. -/
theorem operation_id_unchecked (im : IMState) (agent : Agent)
    (freshId : String) (params : Params) (secret : String) (n : Int)
    (hsec : im.secret = secret)
    (hinf : has_parameter "infrastructure" params = true)
    (hnum : has_parameter "num_vms" params = true)
    (hpy : pyInt ((pget params "num_vms").getD "") = some n)
    (hpos : 0 < n)
    (har : agent.assert_required_run = .ok ())
    (hat : agent.assert_required_terminate = .ok ()) :
    run_submit im agent freshId params secret =
      .accepted freshId n (sput im.operation_ids freshId pendingRunRecord) ∧
    terminate_submit im agent freshId params secret =
      .accepted freshId (sput im.operation_ids freshId pendingKillRecord) := by
  constructor
  · unfold run_submit
    simp [hsec, hinf, hnum, hpy, har, not_le.mpr hpos]
  · unfold terminate_submit
    simp [hsec, hinf, hat]

/-- Witness for amended C3 on a store that already contains the generated
id: the submission is accepted with that very id regardless. -/
theorem operation_id_unchecked_witness :
    run_submit ⟨"s", [("xyz", ⟨true, "none", "success", none⟩)]⟩ agentOk
        "xyz" [("infrastructure", "ec2"), ("num_vms", "3")] "s" =
      .accepted "xyz" 3
        (sput [("xyz", ⟨true, "none", "success", none⟩)] "xyz"
          pendingRunRecord) :=
  (operation_id_unchecked ⟨"s", [("xyz", ⟨true, "none", "success", none⟩)]⟩
    agentOk "xyz" [("infrastructure", "ec2"), ("num_vms", "3")] "s" 3 rfl rfl
    rfl (by decide) (by decide) rfl rfl).1

/-- Counterexample to C2 as stated: a terminate operation whose backend
terminate call raises a configuration error. The record is created
pending, the worker propagates the uncaught error, and the flow ends with
the record still pending: it is never moved to a terminal state by any
store write. -/
theorem terminate_pending_forever_counterexample :
    terminate_instances ⟨"s", []⟩ agentKillConfig "op2"
        [("infrastructure", "ec2")] "s" =
      (.error (.agentConfig "missing credentials"),
       ⟨"s", [("op2", pendingKillRecord)]⟩) ∧
    pendingKillRecord.state = STATE_PENDING := ⟨rfl, rfl⟩

/-- Claim C2 as amended: every Operation Record is created exactly once at
submission time with state pending and is never deleted. The run worker
always moves it to a terminal state by exactly one final store write, and
a terminate worker does so whenever __kill_vms completes; but a terminate
worker whose backend call raises a configuration error propagates the
error and leaves the record pending, with no terminal write. Pending to
success or failed are the only transitions that occur. -/
theorem operation_record_lifecycle (im : IMState) (agent : Agent)
    (freshId : String) (params : Params) (secret : String) (n : Int)
    (hsec : im.secret = secret)
    (hinf : has_parameter "infrastructure" params = true)
    (hnum : has_parameter "num_vms" params = true)
    (hpy : pyInt ((pget params "num_vms").getD "") = some n)
    (hpos : 0 < n)
    (har : agent.assert_required_run = .ok ())
    (hat : agent.assert_required_terminate = .ok ()) :
    pendingRunRecord.state = STATE_PENDING ∧
    pendingKillRecord.state = STATE_PENDING ∧
    sget (sput im.operation_ids freshId pendingRunRecord) freshId =
      some pendingRunRecord ∧
    (run_instances im agent freshId params secret).2.operation_ids =
      sput (sput im.operation_ids freshId pendingRunRecord) freshId
        (spawn_vms agent pendingRunRecord) ∧
    ((spawn_vms agent pendingRunRecord).state = STATE_SUCCESS ∨
      (spawn_vms agent pendingRunRecord).state = STATE_FAILED) ∧
    sget (run_instances im agent freshId params secret).2.operation_ids
        freshId = some (spawn_vms agent pendingRunRecord) ∧
    (∀ fin : StatusInfo, kill_vms agent pendingKillRecord = .ok fin →
      (terminate_instances im agent freshId params secret).2.operation_ids =
        sput (sput im.operation_ids freshId pendingKillRecord) freshId fin ∧
      (fin.state = STATE_SUCCESS ∨ fin.state = STATE_FAILED)) := by
  have hrun := run_flow_accepted im agent freshId params secret n hsec hinf
    hnum hpy hpos har
  refine ⟨rfl, rfl, sget_sput_self _ _ _, ?_, spawn_vms_terminal agent _, ?_,
    ?_⟩
  · rw [hrun]
  · rw [hrun]
    exact sget_sput_self _ _ _
  · intro fin hk
    rw [terminate_flow_accepted im agent freshId params secret hsec hinf hat,
      hk]
    exact ⟨rfl, kill_vms_terminal agent _ fin hk⟩

/-- Witness for amended C2 on a fully successful concrete agent. -/
theorem operation_record_lifecycle_witness :
    sget (run_instances ⟨"s", []⟩ agentOk "op4"
        [("infrastructure", "ec2"), ("num_vms", "2")] "s").2.operation_ids
        "op4" = some (spawn_vms agentOk pendingRunRecord) :=
  (operation_record_lifecycle ⟨"s", []⟩ agentOk "op4"
    [("infrastructure", "ec2"), ("num_vms", "2")] "s" 2 rfl rfl rfl
    (by decide) (by decide) rfl rfl).2.2.2.2.2.1

/-- Counterexample to C4 as stated: the terminate worker does not absorb a
backend configuration error; __kill_vms catches only
AgentRuntimeException, so the exception propagates out of the worker and
no terminal record is persisted for its operation. -/
theorem kill_worker_config_propagates_counterexample :
    kill_vms agentKillConfig pendingKillRecord =
      .error (.config "missing credentials") := rfl

/-- Claim C4 as amended: the run worker absorbs every backend
configuration or runtime error into the Operation Record, so an accepted
run submission always completes with the success response; the terminate
worker absorbs only runtime errors, so an accepted terminate submission
completes whenever the backend terminate call does not raise a
configuration error, a configuration error being the one case that
propagates. -/
theorem worker_error_absorption (im : IMState) (agent : Agent)
    (freshId : String) (params : Params) (secret : String) (n : Int)
    (hsec : im.secret = secret)
    (hinf : has_parameter "infrastructure" params = true)
    (hnum : has_parameter "num_vms" params = true)
    (hpy : pyInt ((pget params "num_vms").getD "") = some n)
    (hpos : 0 < n)
    (har : agent.assert_required_run = .ok ())
    (hat : agent.assert_required_terminate = .ok ()) :
    (run_instances im agent freshId params secret).1 =
      .ok (generate_response_extra true REASON_NONE
            [("operation_id", freshId)]) ∧
    (((∃ u, agent.terminate_instances_result = .ok u) ∨
        ∃ m, agent.terminate_instances_result = .error (.runtime m)) →
      (terminate_instances im agent freshId params secret).1 =
        .ok (generate_response_extra true REASON_NONE
              [("operation_id", freshId)])) := by
  constructor
  · rw [run_flow_accepted im agent freshId params secret n hsec hinf hnum hpy
      hpos har]
  · intro hterm
    have hk : ∃ fin, kill_vms agent pendingKillRecord = .ok fin := by
      rcases hterm with ⟨u, hu⟩ | ⟨m, hm⟩
      · exact ⟨_, by unfold kill_vms; rw [hu]⟩
      · exact ⟨_, by unfold kill_vms; rw [hm]⟩
    obtain ⟨fin, hk⟩ := hk
    rw [terminate_flow_accepted im agent freshId params secret hsec hinf hat,
      hk]

/-- Witness for amended C4: a run whose launch fails and a terminate whose
backend call fails with a runtime error both complete with the success
response. -/
theorem worker_error_absorption_witness :
    (run_instances ⟨"s", []⟩ agentPartial "op5"
        [("infrastructure", "ec2"), ("num_vms", "2")] "s").1 =
      .ok (generate_response_extra true REASON_NONE
            [("operation_id", "op5")]) ∧
    (terminate_instances ⟨"s", []⟩ agentKillRuntime "op6"
        [("infrastructure", "ec2"), ("num_vms", "2")] "s").1 =
      .ok (generate_response_extra true REASON_NONE
            [("operation_id", "op6")]) :=
  ⟨(worker_error_absorption ⟨"s", []⟩ agentPartial "op5"
      [("infrastructure", "ec2"), ("num_vms", "2")] "s" 2 rfl rfl rfl
      (by decide) (by decide) rfl rfl).1,
   (worker_error_absorption ⟨"s", []⟩ agentKillRuntime "op6"
      [("infrastructure", "ec2"), ("num_vms", "2")] "s" 2 rfl rfl rfl
      (by decide) (by decide) rfl rfl).2 (.inr ⟨"terminate failed", rfl⟩)⟩

/-- A concrete agent for which the reconciliation diffs have unequal
lengths: the baseline holds one instance whose public ip later changed,
so two public ips but only one private ip and one instance id are new. -/
def agentUnequalDiff : Agent :=
  ⟨.ok (["px"], ["q1"], ["i1"]), .ok true, .error (.runtime "partial"),
   .ok (["p1", "p2"], ["q1", "q2"], ["i1", "i2"]), .ok (), .ok (), .ok (),
   .ok "sdb"⟩

/-- Counterexample to C7 as stated: on the partial-success reconciliation
path the three vm_info sequences are diffed independently against the
baseline, and here they end up with lengths two, one and one. -/
theorem vm_info_unequal_length_counterexample :
    spawn_vms agentUnequalDiff pendingRunRecord =
      ⟨false, "partial", STATE_SUCCESS,
       some ⟨["p1", "p2"], ["q2"], ["i2"]⟩⟩ ∧
    (["p1", "p2"] : List String).length ≠ (["q2"] : List String).length := by
  constructor
  · rfl
  · decide

/-- Claim C7 as amended: on the full-success path, the three vm_info
sequences have equal length whenever the agent returns equal-length
sequences from run_instances, as its interface requires; on the
partial-success reconciliation path the three sequences are diffed
independently and equal length is not guaranteed. -/
theorem vm_info_equal_length_full_success (agent : Agent)
    (status0 : StatusInfo) (b : Bool)
    (ids pub priv : List String)
    (hcfg : agent.configure_instance_security = .ok b)
    (hrun : agent.run_instances_result = .ok (ids, pub, priv))
    (h1 : ids.length = pub.length) (h2 : pub.length = priv.length) :
    ∃ v, (spawn_vms agent status0).vm_info = some v ∧
      v.public_ips.length = v.private_ips.length ∧
      v.public_ips.length = v.instance_ids.length := by
  refine ⟨⟨pub, priv, ids⟩, ?_, h2, h1.symm⟩
  unfold spawn_vms spawn_attempt
  rw [hcfg, hrun]

/-- Witness for amended C7 on a concrete fully successful launch of two
instances. -/
theorem vm_info_equal_length_full_success_witness :
    ∃ v, (spawn_vms agentOk pendingRunRecord).vm_info = some v ∧
      v.public_ips.length = v.private_ips.length ∧
      v.public_ips.length = v.instance_ids.length :=
  vm_info_equal_length_full_success agentOk pendingRunRecord true
    ["i1", "i2"] ["p1", "p2"] ["q1", "q2"] rfl rfl rfl rfl

end IM
